import Mathlib

/-!
Verification development for the Bounce game (bounce.cpp / game.h).

The per-frame simulation loop of `main`, the collision helpers
(`platformCollision`, `wallCollision`, `collectCoin`), the obstacle patrol
logic (`Obstacle::move`, `Obstacle::handleWallCollision`) and `resetGame`
are embedded as executable functions over exact rationals (the source's
`float` arithmetic is modelled by `ℚ`; every constant of the source is a
small decimal, so each formula is transcribed literally).

Geometry follows SFML: a `CircleShape` positioned at `(x, y)` with radius
`r` has global bounds `(x, y, 2r, 2r)`; a `RectangleShape` positioned at
`(x, y)` with size `(w, h)` has global bounds `(x, y, w, h)`; and
`FloatRect::intersects` normalises each rectangle with min/max and tests
strict overlap on both axes.
-/

/- Batteries marks the rational-number operations `@[irreducible]`, which
stops `decide` from evaluating concrete game states; restore the default
reducibility inside this file so witnesses reduce in the kernel. -/
attribute [local semireducible] Rat.mul Rat.add Rat.sub Rat.inv

set_option maxRecDepth 8000

/-- Axis-aligned rectangle, as SFML's `FloatRect`: left, top, width, height. -/
structure Rect where
  left : ℚ
  top : ℚ
  width : ℚ
  height : ℚ
deriving DecidableEq, Repr

/-- `sf::FloatRect::intersects`: normalise both rectangles with min/max and
test strict overlap of the projections on both axes. -/
def Rect.intersects (a b : Rect) : Bool :=
  let aMinX := min a.left (a.left + a.width)
  let aMaxX := max a.left (a.left + a.width)
  let aMinY := min a.top (a.top + a.height)
  let aMaxY := max a.top (a.top + a.height)
  let bMinX := min b.left (b.left + b.width)
  let bMaxX := max b.left (b.left + b.width)
  let bMinY := min b.top (b.top + b.height)
  let bMaxY := max b.top (b.top + b.height)
  decide (max aMinX bMinX < min aMaxX bMaxX) && decide (max aMinY bMinY < min aMaxY bMaxY)

/-- A coin: `CircleShape` with a radius and a position (class `Coin`). -/
structure Coin where
  radius : ℚ
  x : ℚ
  y : ℚ
deriving DecidableEq, Repr

/-- Global bounds of a coin's circle shape. -/
def Coin.bounds (c : Coin) : Rect :=
  ⟨c.x, c.y, 2 * c.radius, 2 * c.radius⟩

/-- A moving obstacle (class `Obstacle`): rectangle shape, horizontal
velocity, patrol limits. The constructor sets `velocityX = 2.0`. -/
structure Obstacle where
  x : ℚ
  y : ℚ
  width : ℚ
  height : ℚ
  velocityX : ℚ
  leftLimit : ℚ
  rightLimit : ℚ
deriving DecidableEq, Repr

/-- Global bounds of the obstacle's rectangle shape. -/
def Obstacle.bounds (o : Obstacle) : Rect :=
  ⟨o.x, o.y, o.width, o.height⟩

/-- `Obstacle::move`: advance by `velocityX`, then negate the velocity if
the post-move position is at or past either patrol limit. -/
def Obstacle.move (o : Obstacle) : Obstacle :=
  let m := { o with x := o.x + o.velocityX }
  if m.x ≤ m.leftLimit ∨ m.x + m.width ≥ m.rightLimit then
    { m with velocityX := -m.velocityX }
  else m

/-- `Obstacle::handleWallCollision`: negate the velocity if the obstacle's
bounds intersect the wall's bounds. -/
def Obstacle.handleWallCollision (o : Obstacle) (w : Rect) : Obstacle :=
  if o.bounds.intersects w then { o with velocityX := -o.velocityX } else o

/-- One obstacle update of the main loop: `move()` followed by
`handleWallCollision` against each wall in order. -/
def obstacleStep (walls : List Rect) (o : Obstacle) : Obstacle :=
  walls.foldl Obstacle.handleWallCollision o.move

/-- A key event as the event loop consumes it: `pressed` is whether
`event.type == sf::Event::KeyPressed`, `code` is `event.key.code`
(SFML numbers the keys A = 0, ..., Z = 25). -/
structure Ev where
  pressed : Bool
  code : Nat
deriving DecidableEq, Repr

/-- `sf::Keyboard::R`. -/
def keyR : Nat := 17

/-- The per-frame input: the three polled key states and the queued events. -/
structure Input where
  leftKey : Bool
  rightKey : Bool
  upKey : Bool
  events : List Ev
deriving DecidableEq, Repr

/-- The mutable state of `main`: player circle position, velocity vector,
the two flags, coin counter, view centre, live coins, obstacles, and the
level geometry (platforms, walls, goal, floor), which `main` initialises
once and never rewrites. -/
structure GameState where
  playerX : ℚ
  playerY : ℚ
  velX : ℚ
  velY : ℚ
  isOnGround : Bool
  levelCompleted : Bool
  coinCount : Int
  viewX : ℚ
  viewY : ℚ
  coins : List Coin
  obstacles : List Obstacle
  platforms : List Rect
  walls : List Rect
  goal : Rect
  floorRect : Rect
deriving DecidableEq, Repr

/-- The player circle's radius (`sf::CircleShape player(20.0f)`). -/
def playerRadius : ℚ := 20

/-- Global bounds of the player circle. -/
def playerBounds (s : GameState) : Rect :=
  ⟨s.playerX, s.playerY, 2 * playerRadius, 2 * playerRadius⟩

/-- `resetGame`: spawn the player at (400, 300), zero the velocity, clear
both flags, zero the coin counter, recentre the view on (400, 300), and
rebuild the coin list from the default positions with radius 10.
The obstacles and the level geometry are not parameters of `resetGame`
and are untouched. -/
def resetOnState (dflt : List (ℚ × ℚ)) (s : GameState) : GameState :=
  { s with
    playerX := 400
    playerY := 300
    velX := 0
    velY := 0
    isOnGround := false
    levelCompleted := false
    coinCount := 0
    viewX := 400
    viewY := 300
    coins := dflt.map (fun p => ⟨10, p.1, p.2⟩) }

/-- The states `resetGame` produces: all fields it writes, at their reset
values. -/
def IsReset (dflt : List (ℚ × ℚ)) (t : GameState) : Prop :=
  t.playerX = 400 ∧ t.playerY = 300 ∧ t.velX = 0 ∧ t.velY = 0 ∧
  t.isOnGround = false ∧ t.levelCompleted = false ∧ t.coinCount = 0 ∧
  t.viewX = 400 ∧ t.viewY = 300 ∧ t.coins = dflt.map (fun p => ⟨10, p.1, p.2⟩)

/-- Movement input, jump, gravity, and the `player.move(velocity)`
translation (steps 1-4 of the frame). Constants from `main`:
speed 5, friction 0.9, jump -12, gravity 0.5. -/
def inputPhase (inp : Input) (s : GameState) : GameState :=
  let a :=
    if inp.leftKey then { s with velX := -5 }
    else if inp.rightKey then { s with velX := 5 }
    else { s with velX := s.velX * (9 / 10) }
  let b :=
    if inp.upKey ∧ a.isOnGround then { a with velY := -12, isOnGround := false }
    else a
  let c := { b with velY := b.velY + 1 / 2 }
  { c with playerX := c.playerX + c.velX, playerY := c.playerY + c.velY }

/-- The `platformCollision` lambda (also the textually identical floor
check): if the player's bounds intersect the platform's and the player is
falling, snap the player on top of the platform, bounce with 70% energy,
and set the on-ground flag. -/
def platformCollision (p : Rect) (s : GameState) : GameState :=
  if (playerBounds s).intersects p then
    if s.velY > 0 then
      { s with
        playerY := p.top - playerRadius * 2
        velY := -s.velY * (7 / 10)
        isOnGround := true }
    else s
  else s

/-- `std::for_each(platforms.begin(), platforms.end(), platformCollision)`. -/
def platformsPhase (s : GameState) : GameState :=
  s.platforms.foldl (fun t p => platformCollision p t) s

/-- The floor collision check, the same code as `platformCollision`
applied to the floor rectangle. -/
def floorPhase (s : GameState) : GameState :=
  platformCollision s.floorRect s

/-- The `wallCollision` lambda: on intersection, resolve by approach side
(sign of `velocity.x` plus leading-edge comparisons), snapping the player
just outside the wall and zeroing the horizontal velocity. -/
def wallCollision (w : Rect) (s : GameState) : GameState :=
  let pB := playerBounds s
  if pB.intersects w then
    if s.velX > 0 ∧ pB.left + pB.width > w.left ∧ pB.left < w.left then
      { s with playerX := w.left - pB.width, velX := 0 }
    else if s.velX < 0 ∧ pB.left < w.left + w.width ∧ pB.left + pB.width > w.left + w.width then
      { s with playerX := w.left + w.width, velX := 0 }
    else s
  else s

/-- `std::for_each(walls.begin(), walls.end(), wallCollision)`. -/
def wallsPhase (s : GameState) : GameState :=
  s.walls.foldl (fun t w => wallCollision w t) s

/-- The obstacle loop of `main`: each obstacle moves, reverses on each
intersecting wall, and is then tested against the player; on contact
`resetGame` runs. Returns the updated game state, the updated obstacle
list, and whether any player-obstacle contact occurred. -/
def obstacleScan (walls : List Rect) (dflt : List (ℚ × ℚ)) :
    GameState → List Obstacle → GameState × List Obstacle × Bool
  | s, [] => (s, [], false)
  | s, o :: rest =>
    let m := obstacleStep walls o
    let hit := (playerBounds s).intersects m.bounds
    let s2 := if hit then resetOnState dflt s else s
    let r := obstacleScan walls dflt s2 rest
    (r.1, m :: r.2.1, hit || r.2.2)

/-- The obstacle loop as a state transformer. -/
def obstaclePhase (dflt : List (ℚ × ℚ)) (s : GameState) : GameState :=
  let r := obstacleScan s.walls dflt s s.obstacles
  { r.1 with obstacles := r.2.1 }

/-- `coins.erase(std::remove_if(coins.begin(), coins.end(), collectCoin),
coins.end())`: returns the surviving coins in order, and how many times
the `collectCoin` predicate fired (each firing is one `coinCount++`). -/
def collectScan (pb : Rect) : List Coin → List Coin × Nat
  | [] => ([], 0)
  | c :: cs =>
    let r := collectScan pb cs
    if pb.intersects c.bounds then (r.1, r.2 + 1) else (c :: r.1, r.2)

/-- The coin-collection step of the frame. -/
def coinPhase (s : GameState) : GameState :=
  let r := collectScan (playerBounds s) s.coins
  { s with coins := r.1, coinCount := s.coinCount + r.2 }

/-- The goal check: win only when the player's bounds intersect the
goal's and no coin remains. -/
def goalPhase (s : GameState) : GameState :=
  if (playerBounds s).intersects s.goal && s.coins.isEmpty then
    { s with levelCompleted := true }
  else s

/-- The camera update: while not completed, centre the view 200 ahead of
the player at fixed height 300. -/
def cameraPhase (s : GameState) : GameState :=
  if !s.levelCompleted then { s with viewX := s.playerX + 200, viewY := 300 }
  else s

/-- The default coin positions of `main`. -/
def defaultCoinPositions : List (ℚ × ℚ) :=
  [(500, 500), (1200, 400), (2000, 450)]

/-- The coins `resetGame` (and startup) builds from the default positions. -/
def defaultCoins : List Coin :=
  defaultCoinPositions.map (fun p => ⟨10, p.1, p.2⟩)

/-- Event handling of `main`: `if (levelCompleted || event.type ==
KeyPressed) { if (event.key.code == R) resetGame(...); }`. -/
def handleEvent (s : GameState) (e : Ev) : GameState :=
  if (s.levelCompleted || e.pressed) && decide (e.code = keyR) then
    resetOnState defaultCoinPositions s
  else s

/-- The inner `while (window.pollEvent(event))` loop. -/
def processEvents (s : GameState) (evs : List Ev) : GameState :=
  evs.foldl handleEvent s

/-- Steps 1-6 of the simulation: input, gravity, translation, platform,
floor and wall collisions. -/
def physStep (inp : Input) (s : GameState) : GameState :=
  wallsPhase (floorPhase (platformsPhase (inputPhase inp s)))

/-- The frame state just before the goal check: physics, obstacle loop
and coin collection done. -/
def preGoal (inp : Input) (s : GameState) : GameState :=
  coinPhase (obstaclePhase defaultCoinPositions (physStep inp s))

/-- The full body of `if (!levelCompleted) { ... }`. -/
def simStep (inp : Input) (s : GameState) : GameState :=
  cameraPhase (goalPhase (preGoal inp s))

/-- One iteration of the main loop: event handling, then the simulation
step gated on `!levelCompleted`. -/
def frame (inp : Input) (s : GameState) : GameState :=
  let s1 := processEvents s inp.events
  if s1.levelCompleted then s1 else simStep inp s1

/-- The platform list of `main` (constructor order is width, height, x, y;
stored here as left, top, width, height). -/
def initPlatforms : List Rect :=
  [⟨100, 550, 200, 20⟩, ⟨350, 500, 150, 20⟩, ⟨600, 400, 200, 20⟩,
   ⟨900, 350, 150, 20⟩, ⟨1250, 300, 250, 20⟩, ⟨1700, 450, 200, 20⟩,
   ⟨2100, 380, 200, 20⟩, ⟨2600, 550, 150, 20⟩, ⟨3100, 400, 200, 20⟩,
   ⟨3700, 350, 150, 20⟩, ⟨4200, 300, 200, 20⟩]

/-- The wall list of `main`. -/
def initWalls : List Rect :=
  [⟨600, 420, 20, 180⟩, ⟨1600, 450, 20, 200⟩, ⟨3100, 400, 20, 200⟩,
   ⟨3700, 350, 20, 200⟩]

/-- The obstacle list of `main` (each starts with `velocityX = 2`). -/
def initObstacles : List Obstacle :=
  [⟨800, 530, 50, 50, 2, 700, 1100⟩, ⟨1500, 530, 50, 50, 2, 1400, 1800⟩,
   ⟨2300, 530, 50, 50, 2, 2200, 2500⟩, ⟨3200, 530, 50, 50, 2, 3100, 3400⟩,
   ⟨4000, 530, 50, 50, 2, 3900, 4200⟩]

/-- The goal rectangle `Platform(100, 20, 4700, 250, Yellow)`. -/
def goalRect : Rect := ⟨4700, 250, 100, 20⟩

/-- The floor rectangle `Platform(9000, 20, 0, 580)`. -/
def floorRect0 : Rect := ⟨0, 580, 9000, 20⟩

/-- The state of `main` when the loop first runs. -/
def initState : GameState :=
  { playerX := 400, playerY := 300, velX := 0, velY := 0,
    isOnGround := false, levelCompleted := false, coinCount := 0,
    viewX := 400, viewY := 300, coins := defaultCoins,
    obstacles := initObstacles, platforms := initPlatforms,
    walls := initWalls, goal := goalRect, floorRect := floorRect0 }

/-- An input with no keys held and no events. -/
def noInput : Input := ⟨false, false, false, []⟩

/-- States the main loop can be in at the top of an iteration. -/
inductive Reachable : GameState → Prop
  | init : Reachable initState
  | step (inp : Input) {s : GameState} : Reachable s → Reachable (frame inp s)

/-! ### Field lemmas: which state fields each phase leaves untouched -/

theorem foldl_field {β γ : Type _} (F : GameState → γ) (f : GameState → β → GameState)
    (h : ∀ t b, F (f t b) = F t) : ∀ (l : List β) (s : GameState), F (l.foldl f s) = F s
  | [], _ => rfl
  | b :: l, s => by rw [List.foldl_cons, foldl_field F f h l, h]

@[simp] theorem resetOnState_playerX (d : List (ℚ × ℚ)) (s : GameState) : (resetOnState d s).playerX = 400 := rfl
@[simp] theorem resetOnState_playerY (d : List (ℚ × ℚ)) (s : GameState) : (resetOnState d s).playerY = 300 := rfl
@[simp] theorem resetOnState_velX (d : List (ℚ × ℚ)) (s : GameState) : (resetOnState d s).velX = 0 := rfl
@[simp] theorem resetOnState_velY (d : List (ℚ × ℚ)) (s : GameState) : (resetOnState d s).velY = 0 := rfl
@[simp] theorem resetOnState_isOnGround (d : List (ℚ × ℚ)) (s : GameState) : (resetOnState d s).isOnGround = false := rfl
@[simp] theorem resetOnState_levelCompleted (d : List (ℚ × ℚ)) (s : GameState) : (resetOnState d s).levelCompleted = false := rfl
@[simp] theorem resetOnState_coinCount (d : List (ℚ × ℚ)) (s : GameState) : (resetOnState d s).coinCount = 0 := rfl
@[simp] theorem resetOnState_viewX (d : List (ℚ × ℚ)) (s : GameState) : (resetOnState d s).viewX = 400 := rfl
@[simp] theorem resetOnState_viewY (d : List (ℚ × ℚ)) (s : GameState) : (resetOnState d s).viewY = 300 := rfl
@[simp] theorem resetOnState_coins (d : List (ℚ × ℚ)) (s : GameState) : (resetOnState d s).coins = d.map (fun p => ⟨10, p.1, p.2⟩) := rfl
@[simp] theorem resetOnState_obstacles (d : List (ℚ × ℚ)) (s : GameState) : (resetOnState d s).obstacles = s.obstacles := rfl
@[simp] theorem resetOnState_platforms (d : List (ℚ × ℚ)) (s : GameState) : (resetOnState d s).platforms = s.platforms := rfl
@[simp] theorem resetOnState_walls (d : List (ℚ × ℚ)) (s : GameState) : (resetOnState d s).walls = s.walls := rfl
@[simp] theorem resetOnState_goal (d : List (ℚ × ℚ)) (s : GameState) : (resetOnState d s).goal = s.goal := rfl
@[simp] theorem resetOnState_floorRect (d : List (ℚ × ℚ)) (s : GameState) : (resetOnState d s).floorRect = s.floorRect := rfl

theorem isReset_resetOnState (d : List (ℚ × ℚ)) (s : GameState) : IsReset d (resetOnState d s) := by
  refine ⟨rfl, rfl, rfl, rfl, rfl, rfl, rfl, rfl, rfl, rfl⟩

@[simp] theorem inputPhase_levelCompleted (inp : Input) (s : GameState) : (inputPhase inp s).levelCompleted = s.levelCompleted := by
  simp only [inputPhase]; split_ifs <;> rfl
@[simp] theorem inputPhase_coinCount (inp : Input) (s : GameState) : (inputPhase inp s).coinCount = s.coinCount := by
  simp only [inputPhase]; split_ifs <;> rfl
@[simp] theorem inputPhase_viewX (inp : Input) (s : GameState) : (inputPhase inp s).viewX = s.viewX := by
  simp only [inputPhase]; split_ifs <;> rfl
@[simp] theorem inputPhase_viewY (inp : Input) (s : GameState) : (inputPhase inp s).viewY = s.viewY := by
  simp only [inputPhase]; split_ifs <;> rfl
@[simp] theorem inputPhase_coins (inp : Input) (s : GameState) : (inputPhase inp s).coins = s.coins := by
  simp only [inputPhase]; split_ifs <;> rfl
@[simp] theorem inputPhase_obstacles (inp : Input) (s : GameState) : (inputPhase inp s).obstacles = s.obstacles := by
  simp only [inputPhase]; split_ifs <;> rfl
@[simp] theorem inputPhase_platforms (inp : Input) (s : GameState) : (inputPhase inp s).platforms = s.platforms := by
  simp only [inputPhase]; split_ifs <;> rfl
@[simp] theorem inputPhase_walls (inp : Input) (s : GameState) : (inputPhase inp s).walls = s.walls := by
  simp only [inputPhase]; split_ifs <;> rfl
@[simp] theorem inputPhase_goal (inp : Input) (s : GameState) : (inputPhase inp s).goal = s.goal := by
  simp only [inputPhase]; split_ifs <;> rfl
@[simp] theorem inputPhase_floorRect (inp : Input) (s : GameState) : (inputPhase inp s).floorRect = s.floorRect := by
  simp only [inputPhase]; split_ifs <;> rfl

@[simp] theorem platformCollision_playerX (p : Rect) (s : GameState) : (platformCollision p s).playerX = s.playerX := by
  simp only [platformCollision]; split_ifs <;> rfl
@[simp] theorem platformCollision_velX (p : Rect) (s : GameState) : (platformCollision p s).velX = s.velX := by
  simp only [platformCollision]; split_ifs <;> rfl
@[simp] theorem platformCollision_levelCompleted (p : Rect) (s : GameState) : (platformCollision p s).levelCompleted = s.levelCompleted := by
  simp only [platformCollision]; split_ifs <;> rfl
@[simp] theorem platformCollision_coinCount (p : Rect) (s : GameState) : (platformCollision p s).coinCount = s.coinCount := by
  simp only [platformCollision]; split_ifs <;> rfl
@[simp] theorem platformCollision_viewX (p : Rect) (s : GameState) : (platformCollision p s).viewX = s.viewX := by
  simp only [platformCollision]; split_ifs <;> rfl
@[simp] theorem platformCollision_viewY (p : Rect) (s : GameState) : (platformCollision p s).viewY = s.viewY := by
  simp only [platformCollision]; split_ifs <;> rfl
@[simp] theorem platformCollision_coins (p : Rect) (s : GameState) : (platformCollision p s).coins = s.coins := by
  simp only [platformCollision]; split_ifs <;> rfl
@[simp] theorem platformCollision_obstacles (p : Rect) (s : GameState) : (platformCollision p s).obstacles = s.obstacles := by
  simp only [platformCollision]; split_ifs <;> rfl
@[simp] theorem platformCollision_platforms (p : Rect) (s : GameState) : (platformCollision p s).platforms = s.platforms := by
  simp only [platformCollision]; split_ifs <;> rfl
@[simp] theorem platformCollision_walls (p : Rect) (s : GameState) : (platformCollision p s).walls = s.walls := by
  simp only [platformCollision]; split_ifs <;> rfl
@[simp] theorem platformCollision_goal (p : Rect) (s : GameState) : (platformCollision p s).goal = s.goal := by
  simp only [platformCollision]; split_ifs <;> rfl
@[simp] theorem platformCollision_floorRect (p : Rect) (s : GameState) : (platformCollision p s).floorRect = s.floorRect := by
  simp only [platformCollision]; split_ifs <;> rfl

@[simp] theorem platformsPhase_playerX (s : GameState) : (platformsPhase s).playerX = s.playerX :=
  foldl_field GameState.playerX _ (fun t p => platformCollision_playerX p t) s.platforms s
@[simp] theorem platformsPhase_velX (s : GameState) : (platformsPhase s).velX = s.velX :=
  foldl_field GameState.velX _ (fun t p => platformCollision_velX p t) s.platforms s
@[simp] theorem platformsPhase_levelCompleted (s : GameState) : (platformsPhase s).levelCompleted = s.levelCompleted :=
  foldl_field GameState.levelCompleted _ (fun t p => platformCollision_levelCompleted p t) s.platforms s
@[simp] theorem platformsPhase_coinCount (s : GameState) : (platformsPhase s).coinCount = s.coinCount :=
  foldl_field GameState.coinCount _ (fun t p => platformCollision_coinCount p t) s.platforms s
@[simp] theorem platformsPhase_viewX (s : GameState) : (platformsPhase s).viewX = s.viewX :=
  foldl_field GameState.viewX _ (fun t p => platformCollision_viewX p t) s.platforms s
@[simp] theorem platformsPhase_viewY (s : GameState) : (platformsPhase s).viewY = s.viewY :=
  foldl_field GameState.viewY _ (fun t p => platformCollision_viewY p t) s.platforms s
@[simp] theorem platformsPhase_coins (s : GameState) : (platformsPhase s).coins = s.coins :=
  foldl_field GameState.coins _ (fun t p => platformCollision_coins p t) s.platforms s
@[simp] theorem platformsPhase_obstacles (s : GameState) : (platformsPhase s).obstacles = s.obstacles :=
  foldl_field GameState.obstacles _ (fun t p => platformCollision_obstacles p t) s.platforms s
@[simp] theorem platformsPhase_platforms (s : GameState) : (platformsPhase s).platforms = s.platforms :=
  foldl_field GameState.platforms _ (fun t p => platformCollision_platforms p t) s.platforms s
@[simp] theorem platformsPhase_walls (s : GameState) : (platformsPhase s).walls = s.walls :=
  foldl_field GameState.walls _ (fun t p => platformCollision_walls p t) s.platforms s
@[simp] theorem platformsPhase_goal (s : GameState) : (platformsPhase s).goal = s.goal :=
  foldl_field GameState.goal _ (fun t p => platformCollision_goal p t) s.platforms s
@[simp] theorem platformsPhase_floorRect (s : GameState) : (platformsPhase s).floorRect = s.floorRect :=
  foldl_field GameState.floorRect _ (fun t p => platformCollision_floorRect p t) s.platforms s

@[simp] theorem floorPhase_playerX (s : GameState) : (floorPhase s).playerX = s.playerX := platformCollision_playerX _ _
@[simp] theorem floorPhase_velX (s : GameState) : (floorPhase s).velX = s.velX := platformCollision_velX _ _
@[simp] theorem floorPhase_levelCompleted (s : GameState) : (floorPhase s).levelCompleted = s.levelCompleted := platformCollision_levelCompleted _ _
@[simp] theorem floorPhase_coinCount (s : GameState) : (floorPhase s).coinCount = s.coinCount := platformCollision_coinCount _ _
@[simp] theorem floorPhase_viewX (s : GameState) : (floorPhase s).viewX = s.viewX := platformCollision_viewX _ _
@[simp] theorem floorPhase_viewY (s : GameState) : (floorPhase s).viewY = s.viewY := platformCollision_viewY _ _
@[simp] theorem floorPhase_coins (s : GameState) : (floorPhase s).coins = s.coins := platformCollision_coins _ _
@[simp] theorem floorPhase_obstacles (s : GameState) : (floorPhase s).obstacles = s.obstacles := platformCollision_obstacles _ _
@[simp] theorem floorPhase_platforms (s : GameState) : (floorPhase s).platforms = s.platforms := platformCollision_platforms _ _
@[simp] theorem floorPhase_walls (s : GameState) : (floorPhase s).walls = s.walls := platformCollision_walls _ _
@[simp] theorem floorPhase_goal (s : GameState) : (floorPhase s).goal = s.goal := platformCollision_goal _ _
@[simp] theorem floorPhase_floorRect (s : GameState) : (floorPhase s).floorRect = s.floorRect := platformCollision_floorRect _ _

@[simp] theorem wallCollision_playerY (w : Rect) (s : GameState) : (wallCollision w s).playerY = s.playerY := by
  simp only [wallCollision]; split_ifs <;> rfl
@[simp] theorem wallCollision_velY (w : Rect) (s : GameState) : (wallCollision w s).velY = s.velY := by
  simp only [wallCollision]; split_ifs <;> rfl
@[simp] theorem wallCollision_isOnGround (w : Rect) (s : GameState) : (wallCollision w s).isOnGround = s.isOnGround := by
  simp only [wallCollision]; split_ifs <;> rfl
@[simp] theorem wallCollision_levelCompleted (w : Rect) (s : GameState) : (wallCollision w s).levelCompleted = s.levelCompleted := by
  simp only [wallCollision]; split_ifs <;> rfl
@[simp] theorem wallCollision_coinCount (w : Rect) (s : GameState) : (wallCollision w s).coinCount = s.coinCount := by
  simp only [wallCollision]; split_ifs <;> rfl
@[simp] theorem wallCollision_viewX (w : Rect) (s : GameState) : (wallCollision w s).viewX = s.viewX := by
  simp only [wallCollision]; split_ifs <;> rfl
@[simp] theorem wallCollision_viewY (w : Rect) (s : GameState) : (wallCollision w s).viewY = s.viewY := by
  simp only [wallCollision]; split_ifs <;> rfl
@[simp] theorem wallCollision_coins (w : Rect) (s : GameState) : (wallCollision w s).coins = s.coins := by
  simp only [wallCollision]; split_ifs <;> rfl
@[simp] theorem wallCollision_obstacles (w : Rect) (s : GameState) : (wallCollision w s).obstacles = s.obstacles := by
  simp only [wallCollision]; split_ifs <;> rfl
@[simp] theorem wallCollision_platforms (w : Rect) (s : GameState) : (wallCollision w s).platforms = s.platforms := by
  simp only [wallCollision]; split_ifs <;> rfl
@[simp] theorem wallCollision_walls (w : Rect) (s : GameState) : (wallCollision w s).walls = s.walls := by
  simp only [wallCollision]; split_ifs <;> rfl
@[simp] theorem wallCollision_goal (w : Rect) (s : GameState) : (wallCollision w s).goal = s.goal := by
  simp only [wallCollision]; split_ifs <;> rfl
@[simp] theorem wallCollision_floorRect (w : Rect) (s : GameState) : (wallCollision w s).floorRect = s.floorRect := by
  simp only [wallCollision]; split_ifs <;> rfl

@[simp] theorem wallsPhase_playerY (s : GameState) : (wallsPhase s).playerY = s.playerY :=
  foldl_field GameState.playerY _ (fun t w => wallCollision_playerY w t) s.walls s
@[simp] theorem wallsPhase_velY (s : GameState) : (wallsPhase s).velY = s.velY :=
  foldl_field GameState.velY _ (fun t w => wallCollision_velY w t) s.walls s
@[simp] theorem wallsPhase_isOnGround (s : GameState) : (wallsPhase s).isOnGround = s.isOnGround :=
  foldl_field GameState.isOnGround _ (fun t w => wallCollision_isOnGround w t) s.walls s
@[simp] theorem wallsPhase_levelCompleted (s : GameState) : (wallsPhase s).levelCompleted = s.levelCompleted :=
  foldl_field GameState.levelCompleted _ (fun t w => wallCollision_levelCompleted w t) s.walls s
@[simp] theorem wallsPhase_coinCount (s : GameState) : (wallsPhase s).coinCount = s.coinCount :=
  foldl_field GameState.coinCount _ (fun t w => wallCollision_coinCount w t) s.walls s
@[simp] theorem wallsPhase_viewX (s : GameState) : (wallsPhase s).viewX = s.viewX :=
  foldl_field GameState.viewX _ (fun t w => wallCollision_viewX w t) s.walls s
@[simp] theorem wallsPhase_viewY (s : GameState) : (wallsPhase s).viewY = s.viewY :=
  foldl_field GameState.viewY _ (fun t w => wallCollision_viewY w t) s.walls s
@[simp] theorem wallsPhase_coins (s : GameState) : (wallsPhase s).coins = s.coins :=
  foldl_field GameState.coins _ (fun t w => wallCollision_coins w t) s.walls s
@[simp] theorem wallsPhase_obstacles (s : GameState) : (wallsPhase s).obstacles = s.obstacles :=
  foldl_field GameState.obstacles _ (fun t w => wallCollision_obstacles w t) s.walls s
@[simp] theorem wallsPhase_platforms (s : GameState) : (wallsPhase s).platforms = s.platforms :=
  foldl_field GameState.platforms _ (fun t w => wallCollision_platforms w t) s.walls s
@[simp] theorem wallsPhase_walls (s : GameState) : (wallsPhase s).walls = s.walls :=
  foldl_field GameState.walls _ (fun t w => wallCollision_walls w t) s.walls s
@[simp] theorem wallsPhase_goal (s : GameState) : (wallsPhase s).goal = s.goal :=
  foldl_field GameState.goal _ (fun t w => wallCollision_goal w t) s.walls s
@[simp] theorem wallsPhase_floorRect (s : GameState) : (wallsPhase s).floorRect = s.floorRect :=
  foldl_field GameState.floorRect _ (fun t w => wallCollision_floorRect w t) s.walls s

@[simp] theorem coinPhase_playerX (s : GameState) : (coinPhase s).playerX = s.playerX := rfl
@[simp] theorem coinPhase_playerY (s : GameState) : (coinPhase s).playerY = s.playerY := rfl
@[simp] theorem coinPhase_velX (s : GameState) : (coinPhase s).velX = s.velX := rfl
@[simp] theorem coinPhase_velY (s : GameState) : (coinPhase s).velY = s.velY := rfl
@[simp] theorem coinPhase_isOnGround (s : GameState) : (coinPhase s).isOnGround = s.isOnGround := rfl
@[simp] theorem coinPhase_levelCompleted (s : GameState) : (coinPhase s).levelCompleted = s.levelCompleted := rfl
@[simp] theorem coinPhase_viewX (s : GameState) : (coinPhase s).viewX = s.viewX := rfl
@[simp] theorem coinPhase_viewY (s : GameState) : (coinPhase s).viewY = s.viewY := rfl
@[simp] theorem coinPhase_obstacles (s : GameState) : (coinPhase s).obstacles = s.obstacles := rfl
@[simp] theorem coinPhase_platforms (s : GameState) : (coinPhase s).platforms = s.platforms := rfl
@[simp] theorem coinPhase_walls (s : GameState) : (coinPhase s).walls = s.walls := rfl
@[simp] theorem coinPhase_goal (s : GameState) : (coinPhase s).goal = s.goal := rfl
@[simp] theorem coinPhase_floorRect (s : GameState) : (coinPhase s).floorRect = s.floorRect := rfl

@[simp] theorem goalPhase_playerX (s : GameState) : (goalPhase s).playerX = s.playerX := by
  simp only [goalPhase]; split_ifs <;> rfl
@[simp] theorem goalPhase_playerY (s : GameState) : (goalPhase s).playerY = s.playerY := by
  simp only [goalPhase]; split_ifs <;> rfl
@[simp] theorem goalPhase_velX (s : GameState) : (goalPhase s).velX = s.velX := by
  simp only [goalPhase]; split_ifs <;> rfl
@[simp] theorem goalPhase_velY (s : GameState) : (goalPhase s).velY = s.velY := by
  simp only [goalPhase]; split_ifs <;> rfl
@[simp] theorem goalPhase_isOnGround (s : GameState) : (goalPhase s).isOnGround = s.isOnGround := by
  simp only [goalPhase]; split_ifs <;> rfl
@[simp] theorem goalPhase_coinCount (s : GameState) : (goalPhase s).coinCount = s.coinCount := by
  simp only [goalPhase]; split_ifs <;> rfl
@[simp] theorem goalPhase_viewX (s : GameState) : (goalPhase s).viewX = s.viewX := by
  simp only [goalPhase]; split_ifs <;> rfl
@[simp] theorem goalPhase_viewY (s : GameState) : (goalPhase s).viewY = s.viewY := by
  simp only [goalPhase]; split_ifs <;> rfl
@[simp] theorem goalPhase_coins (s : GameState) : (goalPhase s).coins = s.coins := by
  simp only [goalPhase]; split_ifs <;> rfl
@[simp] theorem goalPhase_obstacles (s : GameState) : (goalPhase s).obstacles = s.obstacles := by
  simp only [goalPhase]; split_ifs <;> rfl
@[simp] theorem goalPhase_platforms (s : GameState) : (goalPhase s).platforms = s.platforms := by
  simp only [goalPhase]; split_ifs <;> rfl
@[simp] theorem goalPhase_walls (s : GameState) : (goalPhase s).walls = s.walls := by
  simp only [goalPhase]; split_ifs <;> rfl
@[simp] theorem goalPhase_goal (s : GameState) : (goalPhase s).goal = s.goal := by
  simp only [goalPhase]; split_ifs <;> rfl
@[simp] theorem goalPhase_floorRect (s : GameState) : (goalPhase s).floorRect = s.floorRect := by
  simp only [goalPhase]; split_ifs <;> rfl

theorem goalPhase_levelCompleted (s : GameState) :
    (goalPhase s).levelCompleted = (((playerBounds s).intersects s.goal && s.coins.isEmpty) || s.levelCompleted) := by
  simp only [goalPhase]
  split_ifs with h
  · simp [h]
  · simp only [Bool.not_eq_true] at h
    simp [h]

@[simp] theorem cameraPhase_playerX (s : GameState) : (cameraPhase s).playerX = s.playerX := by
  simp only [cameraPhase]; split_ifs <;> rfl
@[simp] theorem cameraPhase_playerY (s : GameState) : (cameraPhase s).playerY = s.playerY := by
  simp only [cameraPhase]; split_ifs <;> rfl
@[simp] theorem cameraPhase_velX (s : GameState) : (cameraPhase s).velX = s.velX := by
  simp only [cameraPhase]; split_ifs <;> rfl
@[simp] theorem cameraPhase_velY (s : GameState) : (cameraPhase s).velY = s.velY := by
  simp only [cameraPhase]; split_ifs <;> rfl
@[simp] theorem cameraPhase_isOnGround (s : GameState) : (cameraPhase s).isOnGround = s.isOnGround := by
  simp only [cameraPhase]; split_ifs <;> rfl
@[simp] theorem cameraPhase_levelCompleted (s : GameState) : (cameraPhase s).levelCompleted = s.levelCompleted := by
  simp only [cameraPhase]; split_ifs <;> rfl
@[simp] theorem cameraPhase_coinCount (s : GameState) : (cameraPhase s).coinCount = s.coinCount := by
  simp only [cameraPhase]; split_ifs <;> rfl
@[simp] theorem cameraPhase_coins (s : GameState) : (cameraPhase s).coins = s.coins := by
  simp only [cameraPhase]; split_ifs <;> rfl
@[simp] theorem cameraPhase_obstacles (s : GameState) : (cameraPhase s).obstacles = s.obstacles := by
  simp only [cameraPhase]; split_ifs <;> rfl
@[simp] theorem cameraPhase_platforms (s : GameState) : (cameraPhase s).platforms = s.platforms := by
  simp only [cameraPhase]; split_ifs <;> rfl
@[simp] theorem cameraPhase_walls (s : GameState) : (cameraPhase s).walls = s.walls := by
  simp only [cameraPhase]; split_ifs <;> rfl
@[simp] theorem cameraPhase_goal (s : GameState) : (cameraPhase s).goal = s.goal := by
  simp only [cameraPhase]; split_ifs <;> rfl
@[simp] theorem cameraPhase_floorRect (s : GameState) : (cameraPhase s).floorRect = s.floorRect := by
  simp only [cameraPhase]; split_ifs <;> rfl

theorem cameraPhase_viewX (s : GameState) :
    (cameraPhase s).viewX = if s.levelCompleted then s.viewX else s.playerX + 200 := by
  simp only [cameraPhase]
  cases h : s.levelCompleted <;> simp [h]

theorem cameraPhase_viewY (s : GameState) :
    (cameraPhase s).viewY = if s.levelCompleted then s.viewY else 300 := by
  simp only [cameraPhase]
  cases h : s.levelCompleted <;> simp [h]

/-! ### Lemmas about the obstacle loop, the event loop and the coin scan -/

theorem obstacleScan_snd_fst (walls : List Rect) (d : List (ℚ × ℚ)) :
    ∀ (l : List Obstacle) (s : GameState), (obstacleScan walls d s l).2.1 = l.map (obstacleStep walls)
  | [], _ => rfl
  | o :: l, s => by
    simp only [obstacleScan, List.map_cons]
    rw [obstacleScan_snd_fst walls d l]

theorem obstacleScan_hit_false (walls : List Rect) (d : List (ℚ × ℚ)) :
    ∀ (l : List Obstacle) (s : GameState),
      (obstacleScan walls d s l).2.2 = false → (obstacleScan walls d s l).1 = s
  | [], _ => fun _ => rfl
  | o :: l, s => by
    simp only [obstacleScan, Bool.or_eq_false_iff]
    intro h
    rw [h.1, if_neg (by simp)]
    rw [h.1] at h
    exact obstacleScan_hit_false walls d l s h.2

theorem obstacleScan_preserves_isReset (walls : List Rect) (d : List (ℚ × ℚ)) :
    ∀ (l : List Obstacle) (s : GameState), IsReset d s → IsReset d (obstacleScan walls d s l).1
  | [], _, h => h
  | o :: l, s, h => by
    simp only [obstacleScan]
    split_ifs with hh
    · exact obstacleScan_preserves_isReset walls d l _ (isReset_resetOnState d s)
    · exact obstacleScan_preserves_isReset walls d l s h

theorem obstacleScan_hit_true (walls : List Rect) (d : List (ℚ × ℚ)) :
    ∀ (l : List Obstacle) (s : GameState),
      (obstacleScan walls d s l).2.2 = true → IsReset d (obstacleScan walls d s l).1
  | [], _, h => by simp only [obstacleScan] at h; exact absurd h (by simp)
  | o :: l, s, h => by
    simp only [obstacleScan, Bool.or_eq_true] at h
    simp only [obstacleScan]
    by_cases hh : (playerBounds s).intersects (obstacleStep walls o).bounds = true
    · rw [if_pos hh]
      exact obstacleScan_preserves_isReset walls d l _ (isReset_resetOnState d s)
    · rw [if_neg hh]
      rcases h with h | h
      · exact absurd h hh
      · rw [if_neg hh] at h
        exact obstacleScan_hit_true walls d l s h

theorem obstacleScan_fst_cases (walls : List Rect) (d : List (ℚ × ℚ)) (l : List Obstacle) (s : GameState) :
    (obstacleScan walls d s l).1 = s ∨ IsReset d (obstacleScan walls d s l).1 := by
  cases h : (obstacleScan walls d s l).2.2
  · exact Or.inl (obstacleScan_hit_false walls d l s h)
  · exact Or.inr (obstacleScan_hit_true walls d l s h)

theorem obstacleScan_platforms (walls : List Rect) (d : List (ℚ × ℚ)) :
    ∀ (l : List Obstacle) (s : GameState), (obstacleScan walls d s l).1.platforms = s.platforms
  | [], _ => rfl
  | o :: l, s => by
    simp only [obstacleScan]
    split_ifs <;> rw [obstacleScan_platforms walls d l] <;> simp
theorem obstacleScan_walls (walls : List Rect) (d : List (ℚ × ℚ)) :
    ∀ (l : List Obstacle) (s : GameState), (obstacleScan walls d s l).1.walls = s.walls
  | [], _ => rfl
  | o :: l, s => by
    simp only [obstacleScan]
    split_ifs <;> rw [obstacleScan_walls walls d l] <;> simp
theorem obstacleScan_goal (walls : List Rect) (d : List (ℚ × ℚ)) :
    ∀ (l : List Obstacle) (s : GameState), (obstacleScan walls d s l).1.goal = s.goal
  | [], _ => rfl
  | o :: l, s => by
    simp only [obstacleScan]
    split_ifs <;> rw [obstacleScan_goal walls d l] <;> simp
theorem obstacleScan_floorRect (walls : List Rect) (d : List (ℚ × ℚ)) :
    ∀ (l : List Obstacle) (s : GameState), (obstacleScan walls d s l).1.floorRect = s.floorRect
  | [], _ => rfl
  | o :: l, s => by
    simp only [obstacleScan]
    split_ifs <;> rw [obstacleScan_floorRect walls d l] <;> simp
theorem obstacleScan_obstacles (walls : List Rect) (d : List (ℚ × ℚ)) :
    ∀ (l : List Obstacle) (s : GameState), (obstacleScan walls d s l).1.obstacles = s.obstacles
  | [], _ => rfl
  | o :: l, s => by
    simp only [obstacleScan]
    split_ifs <;> rw [obstacleScan_obstacles walls d l] <;> simp

theorem obstacleScan_completed_false (walls : List Rect) (d : List (ℚ × ℚ)) (l : List Obstacle)
    (s : GameState) (h : s.levelCompleted = false) : (obstacleScan walls d s l).1.levelCompleted = false := by
  rcases obstacleScan_fst_cases walls d l s with hc | hc
  · rw [hc]; exact h
  · exact hc.2.2.2.2.2.1

@[simp] theorem obstaclePhase_platforms (d : List (ℚ × ℚ)) (s : GameState) :
    (obstaclePhase d s).platforms = s.platforms := by
  simp only [obstaclePhase]; exact obstacleScan_platforms _ _ _ _
@[simp] theorem obstaclePhase_walls (d : List (ℚ × ℚ)) (s : GameState) :
    (obstaclePhase d s).walls = s.walls := by
  simp only [obstaclePhase]; exact obstacleScan_walls _ _ _ _
@[simp] theorem obstaclePhase_goal (d : List (ℚ × ℚ)) (s : GameState) :
    (obstaclePhase d s).goal = s.goal := by
  simp only [obstaclePhase]; exact obstacleScan_goal _ _ _ _
@[simp] theorem obstaclePhase_floorRect (d : List (ℚ × ℚ)) (s : GameState) :
    (obstaclePhase d s).floorRect = s.floorRect := by
  simp only [obstaclePhase]; exact obstacleScan_floorRect _ _ _ _
@[simp] theorem obstaclePhase_obstacles (d : List (ℚ × ℚ)) (s : GameState) :
    (obstaclePhase d s).obstacles = s.obstacles.map (obstacleStep s.walls) := by
  simp only [obstaclePhase]; exact obstacleScan_snd_fst _ _ _ _

theorem obstaclePhase_completed_false (d : List (ℚ × ℚ)) (s : GameState)
    (h : s.levelCompleted = false) : (obstaclePhase d s).levelCompleted = false := by
  simp only [obstaclePhase]; exact obstacleScan_completed_false _ _ _ _ h

theorem handleEvent_cases (s : GameState) (e : Ev) :
    handleEvent s e = s ∨ handleEvent s e = resetOnState defaultCoinPositions s := by
  unfold handleEvent; split_ifs
  · exact Or.inr rfl
  · exact Or.inl rfl

theorem handleEvent_noR (s : GameState) (e : Ev) (h : e.code ≠ keyR) : handleEvent s e = s := by
  simp [handleEvent, h]

theorem handleEvent_completed_false (s : GameState) (e : Ev) (h : s.levelCompleted = false) :
    (handleEvent s e).levelCompleted = false := by
  rcases handleEvent_cases s e with hc | hc <;> rw [hc]
  · exact h
  · simp

theorem handleEvent_preserves_isReset (s : GameState) (e : Ev)
    (h : IsReset defaultCoinPositions s) : IsReset defaultCoinPositions (handleEvent s e) := by
  rcases handleEvent_cases s e with hc | hc <;> rw [hc]
  · exact h
  · exact isReset_resetOnState _ _

theorem processEvents_noR (s : GameState) (evs : List Ev)
    (h : ∀ e ∈ evs, e.code ≠ keyR) : processEvents s evs = s := by
  induction evs generalizing s with
  | nil => rfl
  | cons e l ih =>
    simp only [processEvents, List.foldl_cons]
    rw [handleEvent_noR s e (h e (by simp))]
    exact ih s (fun x hx => h x (by simp [hx]))

theorem processEvents_completed_false (s : GameState) (evs : List Ev)
    (h : s.levelCompleted = false) : (processEvents s evs).levelCompleted = false := by
  induction evs generalizing s with
  | nil => exact h
  | cons e l ih =>
    simp only [processEvents, List.foldl_cons]
    exact ih _ (handleEvent_completed_false s e h)

theorem processEvents_preserves_isReset (s : GameState) (evs : List Ev)
    (h : IsReset defaultCoinPositions s) : IsReset defaultCoinPositions (processEvents s evs) := by
  induction evs generalizing s with
  | nil => exact h
  | cons e l ih =>
    simp only [processEvents, List.foldl_cons]
    exact ih _ (handleEvent_preserves_isReset s e h)

theorem processEvents_completed_R (s : GameState) (evs : List Ev)
    (hc : s.levelCompleted = true) (he : ∃ e ∈ evs, e.code = keyR) :
    IsReset defaultCoinPositions (processEvents s evs) := by
  induction evs generalizing s with
  | nil => exact absurd he (by simp)
  | cons e l ih =>
    simp only [processEvents, List.foldl_cons]
    by_cases hR : e.code = keyR
    · have : handleEvent s e = resetOnState defaultCoinPositions s := by
        simp [handleEvent, hR, hc]
      rw [this]
      exact processEvents_preserves_isReset _ _ (isReset_resetOnState _ _)
    · rw [handleEvent_noR s e hR]
      rcases he with ⟨x, hx, hxR⟩
      rcases List.mem_cons.1 hx with h1 | h1
      · exact absurd (h1 ▸ hxR) hR
      · exact ih s hc ⟨x, h1, hxR⟩

theorem handleEvent_obstacles (s : GameState) (e : Ev) : (handleEvent s e).obstacles = s.obstacles := by
  rcases handleEvent_cases s e with hc | hc <;> rw [hc] <;> simp
theorem handleEvent_platforms (s : GameState) (e : Ev) : (handleEvent s e).platforms = s.platforms := by
  rcases handleEvent_cases s e with hc | hc <;> rw [hc] <;> simp
theorem handleEvent_walls (s : GameState) (e : Ev) : (handleEvent s e).walls = s.walls := by
  rcases handleEvent_cases s e with hc | hc <;> rw [hc] <;> simp
theorem handleEvent_goal (s : GameState) (e : Ev) : (handleEvent s e).goal = s.goal := by
  rcases handleEvent_cases s e with hc | hc <;> rw [hc] <;> simp
theorem handleEvent_floorRect (s : GameState) (e : Ev) : (handleEvent s e).floorRect = s.floorRect := by
  rcases handleEvent_cases s e with hc | hc <;> rw [hc] <;> simp

theorem collectScan_eq (pb : Rect) :
    ∀ l : List Coin,
      collectScan pb l =
        (l.filter (fun c => !(pb.intersects c.bounds)),
         (l.filter (fun c => pb.intersects c.bounds)).length)
  | [] => rfl
  | c :: l => by
    simp only [collectScan, collectScan_eq pb l, List.filter_cons]
    cases h : pb.intersects c.bounds <;> simp [h]

theorem coinPhase_coins (s : GameState) :
    (coinPhase s).coins = s.coins.filter (fun c => !((playerBounds s).intersects c.bounds)) := by
  simp [coinPhase, collectScan_eq]

theorem coinPhase_coinCount (s : GameState) :
    (coinPhase s).coinCount =
      s.coinCount + (s.coins.filter (fun c => (playerBounds s).intersects c.bounds)).length := by
  simp [coinPhase, collectScan_eq]

/-! ### Frame-level helper lemmas -/

@[simp] theorem physStep_levelCompleted (inp : Input) (s : GameState) : (physStep inp s).levelCompleted = s.levelCompleted := by
  simp [physStep]
@[simp] theorem physStep_coinCount (inp : Input) (s : GameState) : (physStep inp s).coinCount = s.coinCount := by
  simp [physStep]
@[simp] theorem physStep_coins (inp : Input) (s : GameState) : (physStep inp s).coins = s.coins := by
  simp [physStep]
@[simp] theorem physStep_obstacles (inp : Input) (s : GameState) : (physStep inp s).obstacles = s.obstacles := by
  simp [physStep]
@[simp] theorem physStep_platforms (inp : Input) (s : GameState) : (physStep inp s).platforms = s.platforms := by
  simp [physStep]
@[simp] theorem physStep_walls (inp : Input) (s : GameState) : (physStep inp s).walls = s.walls := by
  simp [physStep]
@[simp] theorem physStep_goal (inp : Input) (s : GameState) : (physStep inp s).goal = s.goal := by
  simp [physStep]
@[simp] theorem physStep_floorRect (inp : Input) (s : GameState) : (physStep inp s).floorRect = s.floorRect := by
  simp [physStep]
@[simp] theorem physStep_viewX (inp : Input) (s : GameState) : (physStep inp s).viewX = s.viewX := by
  simp [physStep]
@[simp] theorem physStep_viewY (inp : Input) (s : GameState) : (physStep inp s).viewY = s.viewY := by
  simp [physStep]

theorem processEvents_cases (s : GameState) (evs : List Ev) :
    processEvents s evs = s ∨ IsReset defaultCoinPositions (processEvents s evs) := by
  induction evs generalizing s with
  | nil => exact Or.inl rfl
  | cons e l ih =>
    have hstep : processEvents s (e :: l) = processEvents (handleEvent s e) l := rfl
    rw [hstep]
    rcases handleEvent_cases s e with hc | hc <;> rw [hc]
    · exact ih s
    · rcases ih (resetOnState defaultCoinPositions s) with h2 | h2
      · rw [h2]; exact Or.inr (isReset_resetOnState _ _)
      · exact Or.inr h2

theorem frame_eq_simStep (inp : Input) (s : GameState)
    (h : (processEvents s inp.events).levelCompleted = false) :
    frame inp s = simStep inp (processEvents s inp.events) := by
  simp only [frame, h]
  simp

theorem frame_eq_of_completed (inp : Input) (s : GameState)
    (h : (processEvents s inp.events).levelCompleted = true) :
    frame inp s = processEvents s inp.events := by
  simp only [frame, h]
  simp

theorem preGoal_completed_false (inp : Input) (s : GameState) (h : s.levelCompleted = false) :
    (preGoal inp s).levelCompleted = false := by
  simp only [preGoal, coinPhase_levelCompleted]
  exact obstaclePhase_completed_false _ _ (by simp [h])

theorem simStep_levelCompleted (inp : Input) (s : GameState) :
    (simStep inp s).levelCompleted =
      (((playerBounds (preGoal inp s)).intersects (preGoal inp s).goal &&
        (preGoal inp s).coins.isEmpty) || (preGoal inp s).levelCompleted) := by
  simp only [simStep, cameraPhase_levelCompleted]
  exact goalPhase_levelCompleted _

theorem simStep_coins (inp : Input) (s : GameState) : (simStep inp s).coins = (preGoal inp s).coins := by
  simp [simStep]

/-- Whether the obstacle loop of this frame detects a player-obstacle
contact (and hence calls `resetGame`). -/
def frameScanHit (inp : Input) (s : GameState) : Bool :=
  let s1 := processEvents s inp.events
  if s1.levelCompleted then false
  else
    let t := physStep inp s1
    (obstacleScan t.walls defaultCoinPositions t t.obstacles).2.2

/-! ### Obstacle patrol lemmas -/

theorem Obstacle.move_x (o : Obstacle) : o.move.x = o.x + o.velocityX := by
  simp only [Obstacle.move]; split_ifs <;> rfl
theorem Obstacle.move_y (o : Obstacle) : o.move.y = o.y := by
  simp only [Obstacle.move]; split_ifs <;> rfl
theorem Obstacle.move_width (o : Obstacle) : o.move.width = o.width := by
  simp only [Obstacle.move]; split_ifs <;> rfl
theorem Obstacle.move_height (o : Obstacle) : o.move.height = o.height := by
  simp only [Obstacle.move]; split_ifs <;> rfl
theorem Obstacle.move_leftLimit (o : Obstacle) : o.move.leftLimit = o.leftLimit := by
  simp only [Obstacle.move]; split_ifs <;> rfl
theorem Obstacle.move_rightLimit (o : Obstacle) : o.move.rightLimit = o.rightLimit := by
  simp only [Obstacle.move]; split_ifs <;> rfl

theorem Obstacle.move_velocityX (o : Obstacle) :
    o.move.velocityX =
      if o.x + o.velocityX ≤ o.leftLimit ∨ o.x + o.velocityX + o.width ≥ o.rightLimit then
        -o.velocityX
      else o.velocityX := by
  simp only [Obstacle.move]
  split_ifs <;> rfl

theorem Obstacle.handleWall_bounds (o : Obstacle) (w : Rect) : (o.handleWallCollision w).bounds = o.bounds := by
  simp only [Obstacle.handleWallCollision]; split_ifs <;> rfl
theorem Obstacle.handleWall_x (o : Obstacle) (w : Rect) : (o.handleWallCollision w).x = o.x := by
  simp only [Obstacle.handleWallCollision]; split_ifs <;> rfl
theorem Obstacle.handleWall_velocityX (o : Obstacle) (w : Rect) :
    (o.handleWallCollision w).velocityX =
      if o.bounds.intersects w then -o.velocityX else o.velocityX := by
  simp only [Obstacle.handleWallCollision]
  split_ifs <;> rfl

theorem foldWalls_x : ∀ (ws : List Rect) (o : Obstacle),
    (ws.foldl Obstacle.handleWallCollision o).x = o.x
  | [], _ => rfl
  | w :: ws, o => by
    rw [List.foldl_cons, foldWalls_x ws, Obstacle.handleWall_x]

theorem foldWalls_bounds : ∀ (ws : List Rect) (o : Obstacle),
    (ws.foldl Obstacle.handleWallCollision o).bounds = o.bounds
  | [], _ => rfl
  | w :: ws, o => by
    rw [List.foldl_cons, foldWalls_bounds ws, Obstacle.handleWall_bounds]

theorem foldWalls_velocityX : ∀ (ws : List Rect) (o : Obstacle),
    (ws.foldl Obstacle.handleWallCollision o).velocityX =
      (-1 : ℚ) ^ (ws.filter (fun w => o.bounds.intersects w)).length * o.velocityX
  | [], o => by simp
  | w :: ws, o => by
    rw [List.foldl_cons, List.filter_cons, foldWalls_velocityX ws]
    rw [Obstacle.handleWall_bounds, Obstacle.handleWall_velocityX]
    by_cases h : o.bounds.intersects w = true
    · rw [if_pos h, if_pos h, List.length_cons, pow_succ]
      ring
    · rw [if_neg h, if_neg (by simpa using h)]

/-- The invariant preserved by iterated `Obstacle::move`: the patrol
parameters are fixed, the speed can only have flipped sign, and the
position is within the limits on the side the obstacle is moving away
from, within one displacement on the other side. -/
def PatrolInv (L R w d : ℚ) (o : Obstacle) : Prop :=
  o.leftLimit = L ∧ o.rightLimit = R ∧ o.width = w ∧
  (o.velocityX = d ∨ o.velocityX = -d) ∧
  (0 ≤ o.velocityX → L - o.velocityX ≤ o.x ∧ o.x + w ≤ R) ∧
  (o.velocityX ≤ 0 → L ≤ o.x ∧ o.x + w ≤ R - o.velocityX)

theorem patrolInv_step (L R w d : ℚ) (o : Obstacle) (h : PatrolInv L R w d o) :
    PatrolInv L R w d o.move := by
  obtain ⟨hL, hR, hw, hv, hpos, hneg⟩ := h
  subst hL hR hw
  simp only [Obstacle.move, PatrolInv]
  split_ifs with hc
  all_goals dsimp only
  · refine ⟨rfl, rfl, rfl, ?_, ?_, ?_⟩
    · rcases hv with h | h
      · exact Or.inr (by rw [h])
      · exact Or.inl (by rw [h, neg_neg])
    · intro h0
      have hvle : o.velocityX ≤ 0 := by linarith [neg_nonneg.mp h0]
      obtain ⟨ha, hb⟩ := hneg hvle
      constructor <;> linarith
    · intro h0
      have hvge : 0 ≤ o.velocityX := by linarith
      obtain ⟨ha, hb⟩ := hpos hvge
      constructor <;> linarith
  · push_neg at hc
    obtain ⟨hc1, hc2⟩ := hc
    refine ⟨rfl, rfl, rfl, hv, ?_, ?_⟩
    · intro h0
      constructor <;> linarith
    · intro h0
      constructor <;> linarith

theorem patrolInv_iterate (L R w d : ℚ) (o : Obstacle) (h : PatrolInv L R w d o) :
    ∀ n : ℕ, PatrolInv L R w d (Obstacle.move^[n] o)
  | 0 => h
  | n + 1 => by
    rw [Function.iterate_succ_apply']
    exact patrolInv_step L R w d _ (patrolInv_iterate L R w d o h n)

theorem patrolInv_bounds (L R w d : ℚ) (o : Obstacle) (h : PatrolInv L R w d o) :
    L - |d| ≤ o.x ∧ o.x + w ≤ R + |d| := by
  obtain ⟨hL, hR, hw, hv, hpos, hneg⟩ := h
  have habs : |o.velocityX| = |d| := by
    rcases hv with h | h <;> rw [h] <;> simp
  rcases le_or_lt 0 o.velocityX with h0 | h0
  · obtain ⟨ha, hb⟩ := hpos h0
    have : o.velocityX ≤ |d| := habs ▸ le_abs_self o.velocityX
    constructor <;> [linarith; linarith [abs_nonneg d]]
  · obtain ⟨ha, hb⟩ := hneg h0.le
    have : -o.velocityX ≤ |d| := habs ▸ neg_le_abs o.velocityX
    constructor <;> [linarith [abs_nonneg d]; linarith]

theorem patrolInv_init (o : Obstacle) (h1 : o.leftLimit ≤ o.x) (h2 : o.x + o.width ≤ o.rightLimit) :
    PatrolInv o.leftLimit o.rightLimit o.width o.velocityX o := by
  refine ⟨rfl, rfl, rfl, Or.inl rfl, ?_, ?_⟩ <;> intro h0 <;> constructor <;> linarith

/-! ### Claim theorems -/

/-- Claim C1: for every platform (the floor included) whose bounds the
falling player intersects at the collision check, the check snaps the
player's vertical position to the platform's top minus the player's
diameter, multiplies the vertical velocity by -0.7, and sets the
on-ground flag. -/
theorem platform_bounce_c1 (p : Rect) (s : GameState)
    (hI : (playerBounds s).intersects p = true) (hv : s.velY > 0) :
    (platformCollision p s).playerY = p.top - playerRadius * 2 ∧
    (platformCollision p s).velY = -(7 / 10) * s.velY ∧
    (platformCollision p s).isOnGround = true := by
  unfold platformCollision
  rw [if_pos hI, if_pos hv]
  exact ⟨rfl, by ring, rfl⟩

/-- A falling state meeting the hypotheses of C1 over the first platform. -/
def fallState : GameState := { initState with playerX := 150, playerY := 545, velY := 2 }

theorem platform_bounce_c1_witness :
    (platformCollision ⟨100, 550, 200, 20⟩ fallState).playerY = (550 : ℚ) - playerRadius * 2 ∧
    (platformCollision ⟨100, 550, 200, 20⟩ fallState).velY = -(7 / 10) * fallState.velY ∧
    (platformCollision ⟨100, 550, 200, 20⟩ fallState).isOnGround = true :=
  platform_bounce_c1 ⟨100, 550, 200, 20⟩ fallState (by decide) (by decide)

/-- Claim C2: `resetGame` restores the spawn position, zero velocity,
cleared flags, zero coin count, centred camera, and one radius-10 coin
per default position in list order; running it twice equals running it
once. -/
theorem reset_restores_c2 (s : GameState) (d : List (ℚ × ℚ)) :
    (resetOnState d s).playerX = 400 ∧ (resetOnState d s).playerY = 300 ∧
    (resetOnState d s).velX = 0 ∧ (resetOnState d s).velY = 0 ∧
    (resetOnState d s).isOnGround = false ∧ (resetOnState d s).levelCompleted = false ∧
    (resetOnState d s).coinCount = 0 ∧
    (resetOnState d s).viewX = 400 ∧ (resetOnState d s).viewY = 300 ∧
    (resetOnState d s).coins = d.map (fun p => ⟨10, p.1, p.2⟩) ∧
    resetOnState d (resetOnState d s) = resetOnState d s :=
  ⟨rfl, rfl, rfl, rfl, rfl, rfl, rfl, rfl, rfl, rfl, rfl⟩

/-- Claim C9: `resetGame` leaves the obstacles (positions, velocities,
patrol limits) and the platform, wall, goal and floor geometry unchanged. -/
theorem reset_preserves_world_c9 (s : GameState) (d : List (ℚ × ℚ)) :
    (resetOnState d s).obstacles = s.obstacles ∧
    (resetOnState d s).platforms = s.platforms ∧
    (resetOnState d s).walls = s.walls ∧
    (resetOnState d s).goal = s.goal ∧
    (resetOnState d s).floorRect = s.floorRect :=
  ⟨rfl, rfl, rfl, rfl, rfl⟩

/-- Claim C6: for a wall the player's bounds intersect, the approach side
follows the sign of the horizontal velocity and the leading-edge
comparisons of the source; on the chosen side the player is snapped just
outside the wall with the horizontal velocity zeroed; the check (and the
whole wall phase) never changes the vertical position or velocity. -/
theorem wall_resolution_c6 (w : Rect) (s : GameState)
    (hI : (playerBounds s).intersects w = true) :
    (s.velX > 0 → (playerBounds s).left + (playerBounds s).width > w.left →
      (playerBounds s).left < w.left →
      (wallCollision w s).playerX = w.left - (playerBounds s).width ∧
      (wallCollision w s).velX = 0) ∧
    (s.velX < 0 → (playerBounds s).left < w.left + w.width →
      (playerBounds s).left + (playerBounds s).width > w.left + w.width →
      (wallCollision w s).playerX = w.left + w.width ∧
      (wallCollision w s).velX = 0) ∧
    (wallCollision w s).playerY = s.playerY ∧
    (wallCollision w s).velY = s.velY ∧
    (wallsPhase s).playerY = s.playerY ∧
    (wallsPhase s).velY = s.velY := by
  refine ⟨?_, ?_, wallCollision_playerY w s, wallCollision_velY w s,
    wallsPhase_playerY s, wallsPhase_velY s⟩
  · intro h1 h2 h3
    have hc : s.velX > 0 ∧ (playerBounds s).left + (playerBounds s).width > w.left ∧
        (playerBounds s).left < w.left := ⟨h1, h2, h3⟩
    simp only [wallCollision]
    rw [if_pos hI, if_pos hc]
    exact ⟨rfl, rfl⟩
  · intro h1 h2 h3
    have hn : ¬(s.velX > 0 ∧ (playerBounds s).left + (playerBounds s).width > w.left ∧
        (playerBounds s).left < w.left) := fun hcon => absurd hcon.1 (lt_asymm h1)
    have hc : s.velX < 0 ∧ (playerBounds s).left < w.left + w.width ∧
        (playerBounds s).left + (playerBounds s).width > w.left + w.width := ⟨h1, h2, h3⟩
    simp only [wallCollision]
    rw [if_pos hI, if_neg hn, if_pos hc]
    exact ⟨rfl, rfl⟩

/-- A rightward-moving state that intersects the first wall of the level. -/
def runState : GameState := { initState with playerX := 575, playerY := 450, velX := 5 }

theorem wall_resolution_c6_witness :
    (runState.velX > 0 → (playerBounds runState).left + (playerBounds runState).width > (600 : ℚ) →
      (playerBounds runState).left < (600 : ℚ) →
      (wallCollision ⟨600, 420, 20, 180⟩ runState).playerX = (600 : ℚ) - (playerBounds runState).width ∧
      (wallCollision ⟨600, 420, 20, 180⟩ runState).velX = 0) ∧
    (runState.velX < 0 → (playerBounds runState).left < (600 : ℚ) + 20 →
      (playerBounds runState).left + (playerBounds runState).width > (600 : ℚ) + 20 →
      (wallCollision ⟨600, 420, 20, 180⟩ runState).playerX = (600 : ℚ) + 20 ∧
      (wallCollision ⟨600, 420, 20, 180⟩ runState).velX = 0) ∧
    (wallCollision ⟨600, 420, 20, 180⟩ runState).playerY = runState.playerY ∧
    (wallCollision ⟨600, 420, 20, 180⟩ runState).velY = runState.velY ∧
    (wallsPhase runState).playerY = runState.playerY ∧
    (wallsPhase runState).velY = runState.velY :=
  wall_resolution_c6 ⟨600, 420, 20, 180⟩ runState (by decide)

/-- An obstacle started in bounds, used for the C4 counterexample. -/
def cObstacle : Obstacle := ⟨48, 0, 50, 50, 2, 0, 100⟩

/-- A wall overlapping `cObstacle`'s right patrol limit. -/
def cWall : Rect := ⟨90, 0, 20, 50⟩

/-- Claim C4 counterexample: with a wall overlapping the right patrol
limit, the wall reversal cancels the patrol reversal, so the obstacle
keeps moving right past the limit: after 3 steps from an in-bounds start
the right edge is 104 > rightLimit + |velocityX| = 102 (and it keeps
growing, reaching 160 before turning); the speed magnitude is still 2,
so the extent leaves the limits by more than one step's displacement. -/
theorem obstacle_patrol_c4_counterexample :
    cObstacle.leftLimit ≤ cObstacle.x ∧
    cObstacle.x + cObstacle.width ≤ cObstacle.rightLimit ∧
    |((obstacleStep [cWall])^[3] cObstacle).velocityX| = |cObstacle.velocityX| ∧
    ((obstacleStep [cWall])^[3] cObstacle).x + ((obstacleStep [cWall])^[3] cObstacle).width >
      cObstacle.rightLimit + |cObstacle.velocityX| := by
  refine ⟨by decide, by decide, by decide, by decide⟩

/-- Claim C4 (amended): the velocity sign is negated exactly as the claim
says (patrol-limit test on the post-move position, plus one negation per
intersecting wall); and for steps in which no wall reversal fires (pure
`Obstacle::move` patrol), from an in-bounds start the horizontal extent
stays within [leftLimit - |velocityX|, rightLimit + |velocityX|] over
arbitrarily many steps. (The unrestricted claim is refuted by
`obstacle_patrol_c4_counterexample`.) -/
theorem obstacle_patrol_c4 (o : Obstacle) (walls : List Rect) :
    (o.move.x = o.x + o.velocityX ∧
     o.move.velocityX =
       (if o.x + o.velocityX ≤ o.leftLimit ∨ o.x + o.velocityX + o.width ≥ o.rightLimit then
         -o.velocityX
        else o.velocityX) ∧
     (obstacleStep walls o).x = o.move.x ∧
     (obstacleStep walls o).velocityX =
       (-1 : ℚ) ^ (walls.filter (fun w => o.move.bounds.intersects w)).length * o.move.velocityX) ∧
    (o.leftLimit ≤ o.x → o.x + o.width ≤ o.rightLimit → ∀ n : ℕ,
      o.leftLimit - |o.velocityX| ≤ (Obstacle.move^[n] o).x ∧
      (Obstacle.move^[n] o).x + o.width ≤ o.rightLimit + |o.velocityX|) := by
  constructor
  · refine ⟨Obstacle.move_x o, Obstacle.move_velocityX o, ?_, ?_⟩
    · exact foldWalls_x walls o.move
    · exact foldWalls_velocityX walls o.move
  · intro h1 h2 n
    have hinv := patrolInv_iterate o.leftLimit o.rightLimit o.width o.velocityX o
      (patrolInv_init o h1 h2) n
    exact patrolInv_bounds _ _ _ _ _ hinv

theorem obstacle_patrol_c4_witness :
    cObstacle.leftLimit - |cObstacle.velocityX| ≤ (Obstacle.move^[4] cObstacle).x ∧
    (Obstacle.move^[4] cObstacle).x + cObstacle.width ≤ cObstacle.rightLimit + |cObstacle.velocityX| :=
  (obstacle_patrol_c4 cObstacle [cWall]).2 (by decide) (by decide) 4

/-- Claim C5: whenever the obstacle loop's player test fires for some
obstacle (the hit flag of the scan), the state the loop leaves behind
satisfies every postcondition of `resetGame`: the full game reset happened
in that frame. -/
theorem obstacle_hit_resets_c5 (walls : List Rect) (d : List (ℚ × ℚ))
    (l : List Obstacle) (s : GameState)
    (h : (obstacleScan walls d s l).2.2 = true) :
    IsReset d (obstacleScan walls d s l).1 :=
  obstacleScan_hit_true walls d l s h

/-- A state standing where the first obstacle will be after it moves. -/
def hitState : GameState := { initState with playerX := 790, playerY := 540 }

theorem obstacle_hit_resets_c5_witness :
    IsReset defaultCoinPositions
      (obstacleScan hitState.walls defaultCoinPositions hitState hitState.obstacles).1 :=
  obstacle_hit_resets_c5 hitState.walls defaultCoinPositions hitState.obstacles hitState (by decide)

/-- Claim C7: the coin scan removes exactly the intersecting coins,
keeping the rest in order near, and adds one to the counter per removed
coin; and across a frame in which no reset fires (no R-keyed event and
no obstacle contact), the coin counter never decreases. -/
theorem coin_collection_c7 (inp : Input) (s : GameState) :
    ((coinPhase s).coins = s.coins.filter (fun c => !((playerBounds s).intersects c.bounds)) ∧
     (coinPhase s).coinCount =
       s.coinCount + (s.coins.filter (fun c => (playerBounds s).intersects c.bounds)).length) ∧
    ((∀ e ∈ inp.events, e.code ≠ keyR) → frameScanHit inp s = false →
      s.coinCount ≤ (frame inp s).coinCount) := by
  refine ⟨⟨coinPhase_coins s, coinPhase_coinCount s⟩, ?_⟩
  intro hR hHit
  have h1 : processEvents s inp.events = s := processEvents_noR s inp.events hR
  by_cases hc : s.levelCompleted = true
  · rw [frame_eq_of_completed inp s (by rw [h1]; exact hc), h1]
  · have hc' : s.levelCompleted = false := by
      revert hc; cases s.levelCompleted <;> simp
    rw [frame_eq_simStep inp s (by rw [h1]; exact hc'), h1]
    have hscan : (obstacleScan (physStep inp s).walls defaultCoinPositions
        (physStep inp s) (physStep inp s).obstacles).2.2 = false := by
      have h2 := hHit
      simp only [frameScanHit, h1, hc'] at h2
      simpa using h2
    have hfix : (obstacleScan (physStep inp s).walls defaultCoinPositions
        (physStep inp s) (physStep inp s).obstacles).1 = physStep inp s :=
      obstacleScan_hit_false _ _ _ _ hscan
    have e1 : (simStep inp s).coinCount = (preGoal inp s).coinCount := by
      simp [simStep]
    have e2 : (preGoal inp s).coinCount =
        (obstaclePhase defaultCoinPositions (physStep inp s)).coinCount +
        ((obstaclePhase defaultCoinPositions (physStep inp s)).coins.filter
          (fun c => (playerBounds (obstaclePhase defaultCoinPositions (physStep inp s))).intersects c.bounds)).length :=
      coinPhase_coinCount _
    have e3 : (obstaclePhase defaultCoinPositions (physStep inp s)).coinCount = s.coinCount := by
      show (obstacleScan (physStep inp s).walls defaultCoinPositions
        (physStep inp s) (physStep inp s).obstacles).1.coinCount = s.coinCount
      rw [hfix]
      simp
    rw [e1, e2, e3]
    exact le_add_of_nonneg_right (Int.natCast_nonneg _)

theorem coin_collection_c7_witness :
    ((coinPhase initState).coins =
      initState.coins.filter (fun c => !((playerBounds initState).intersects c.bounds)) ∧
     (coinPhase initState).coinCount =
       initState.coinCount +
       (initState.coins.filter (fun c => (playerBounds initState).intersects c.bounds)).length) ∧
    initState.coinCount ≤ (frame noInput initState).coinCount :=
  ⟨(coin_collection_c7 noInput initState).1,
   (coin_collection_c7 noInput initState).2 (by intro e he; simp [noInput] at he) (by decide)⟩

/-- The completed-level state used for C8. -/
def completedState : GameState := { initState with levelCompleted := true }

/-- Claim C8 counterexample: with the level completed, a key press whose
code is not R (here code 0, key A) does not invoke the reset: the frame
leaves the state unchanged and levelCompleted stays true, contrary to the
claim that any key press received while completed invokes the reset and
returns the state to levelCompleted = false. -/
theorem completed_restart_c8_counterexample :
    frame ⟨false, false, false, [⟨true, 0⟩]⟩ completedState = completedState ∧
    completedState.levelCompleted = true :=
  ⟨by decide, rfl⟩

/-- Claim C8 (amended): while levelCompleted is true, a frame whose events
carry no key code R leaves the state completely unchanged (no physics or
collision step runs); an event carrying key code R invokes the reset,
leaving the post-event state with levelCompleted = false and
isOnGround = false (and the other reset postconditions), from which the
same frame's simulation step proceeds. -/
theorem completed_restart_c8 (inp : Input) (s : GameState) (hc : s.levelCompleted = true) :
    ((∀ e ∈ inp.events, e.code ≠ keyR) → frame inp s = s) ∧
    ((∃ e ∈ inp.events, e.code = keyR) →
      IsReset defaultCoinPositions (processEvents s inp.events)) := by
  constructor
  · intro h
    have h1 : processEvents s inp.events = s := processEvents_noR s inp.events h
    rw [frame_eq_of_completed inp s (by rw [h1]; exact hc), h1]
  · intro he
    exact processEvents_completed_R s inp.events hc he

theorem completed_restart_c8_witness :
    IsReset defaultCoinPositions (processEvents completedState [⟨true, 17⟩]) :=
  (completed_restart_c8 ⟨false, false, false, [⟨true, 17⟩]⟩ completedState rfl).2
    ⟨⟨true, 17⟩, by simp, rfl⟩

/-- Invariant of the main loop: a completed state has no active coins.
Completion is only ever set by the goal check, whose condition includes
coin emptiness; resets clear the flag. -/
theorem completed_coins_inv (s : GameState) (hs : Reachable s) :
    s.levelCompleted = true → s.coins = [] := by
  induction hs with
  | init =>
    intro h
    exact absurd h (by decide)
  | @step inp t hprev ih =>
    intro hcomp
    by_cases h1 : (processEvents t inp.events).levelCompleted = true
    · rw [frame_eq_of_completed inp t h1] at hcomp ⊢
      rcases processEvents_cases t inp.events with h2 | h2
      · rw [h2] at hcomp ⊢
        exact ih hcomp
      · rw [h2.2.2.2.2.2.1] at h1
        exact absurd h1 (by simp)
    · have h1f : (processEvents t inp.events).levelCompleted = false := by
        revert h1; cases (processEvents t inp.events).levelCompleted <;> simp
      rw [frame_eq_simStep inp t h1f] at hcomp ⊢
      rw [simStep_coins]
      rw [simStep_levelCompleted, preGoal_completed_false inp _ h1f, Bool.or_false,
        Bool.and_eq_true] at hcomp
      exact List.isEmpty_iff.mp hcomp.2

/-- Claim C3: in a frame starting from a not-completed state, the
completed flag becomes true exactly when, at the goal check of that frame
(after the coin scan), the player's bounds intersect the goal's and the
active coin list is empty; and in every reachable state, completed
implies an empty coin list. -/
theorem goal_completion_c3 (inp : Input) (s : GameState) (hs : Reachable s) :
    (s.levelCompleted = false →
      ((frame inp s).levelCompleted = true ↔
        ((playerBounds (preGoal inp (processEvents s inp.events))).intersects
            (preGoal inp (processEvents s inp.events)).goal = true ∧
         (preGoal inp (processEvents s inp.events)).coins = []))) ∧
    (s.levelCompleted = true → s.coins = []) := by
  refine ⟨?_, completed_coins_inv s hs⟩
  intro h0
  have hc1 : (processEvents s inp.events).levelCompleted = false :=
    processEvents_completed_false s _ h0
  rw [frame_eq_simStep inp s hc1]
  rw [simStep_levelCompleted, preGoal_completed_false inp _ hc1, Bool.or_false,
    Bool.and_eq_true]
  rw [List.isEmpty_iff]

theorem goal_completion_c3_witness :
    (frame noInput initState).levelCompleted = true ↔
      ((playerBounds (preGoal noInput (processEvents initState noInput.events))).intersects
          (preGoal noInput (processEvents initState noInput.events)).goal = true ∧
       (preGoal noInput (processEvents initState noInput.events)).coins = []) :=
  (goal_completion_c3 noInput initState Reachable.init).1 rfl

/-- The player's global bounds right after a reset. -/
def resetPlayerBounds : Rect := ⟨400, 300, 2 * playerRadius, 2 * playerRadius⟩

theorem playerBounds_coinPhase (t : GameState) : playerBounds (coinPhase t) = playerBounds t := by
  unfold playerBounds
  rw [coinPhase_playerX, coinPhase_playerY]

/-- Claim C10: a reset triggered by player-obstacle contact does not abort
the frame. The whole obstacle list still advances (each obstacle by its
full move-and-wall step); the coin scan runs against the freshly reset
player, so the frame ends with the default coins filtered (and counted)
against the spawn-position bounds; the goal check runs on the reset
player against the level's goal; and the camera update runs on the reset
state (view x = 600 = spawn x + 200 unless the goal check completed the
level at the spawn, view y = 300 either way). -/
theorem reset_continues_frame_c10 (inp : Input) (s : GameState)
    (h0 : s.levelCompleted = false) (hR : ∀ e ∈ inp.events, e.code ≠ keyR)
    (hHit : frameScanHit inp s = true) :
    (frame inp s).obstacles = s.obstacles.map (obstacleStep s.walls) ∧
    (frame inp s).coins = defaultCoins.filter (fun c => !(resetPlayerBounds.intersects c.bounds)) ∧
    (frame inp s).coinCount =
      ((defaultCoins.filter (fun c => resetPlayerBounds.intersects c.bounds)).length : Int) ∧
    (frame inp s).levelCompleted =
      (resetPlayerBounds.intersects s.goal &&
       (defaultCoins.filter (fun c => !(resetPlayerBounds.intersects c.bounds))).isEmpty) ∧
    (frame inp s).viewX = (if (frame inp s).levelCompleted = true then 400 else 600) ∧
    (frame inp s).viewY = 300 := by
  have h1 : processEvents s inp.events = s := processEvents_noR s inp.events hR
  have hfr : frame inp s = simStep inp s := by
    rw [frame_eq_simStep inp s (by rw [h1]; exact h0), h1]
  have hsim : simStep inp s =
      cameraPhase (goalPhase (coinPhase (obstaclePhase defaultCoinPositions (physStep inp s)))) := rfl
  rw [hfr, hsim]
  have hscan : (obstacleScan (physStep inp s).walls defaultCoinPositions
      (physStep inp s) (physStep inp s).obstacles).2.2 = true := by
    have h2 := hHit
    simp only [frameScanHit, h1, h0] at h2
    simpa using h2
  obtain ⟨hpX, hpY, hvX2, hvY2, hog, hlc, hcc, hvx, hvy, hcoins⟩ :=
    obstacleScan_hit_true (physStep inp s).walls defaultCoinPositions
      (physStep inp s).obstacles (physStep inp s) hscan
  have hpb : playerBounds (obstaclePhase defaultCoinPositions (physStep inp s)) = resetPlayerBounds := by
    unfold playerBounds resetPlayerBounds
    rw [show (obstaclePhase defaultCoinPositions (physStep inp s)).playerX = 400 from hpX,
        show (obstaclePhase defaultCoinPositions (physStep inp s)).playerY = 300 from hpY]
  have hXcoins : (obstaclePhase defaultCoinPositions (physStep inp s)).coins = defaultCoins := hcoins
  have hXgoal : (obstaclePhase defaultCoinPositions (physStep inp s)).goal = s.goal := by simp
  have hXcc : (obstaclePhase defaultCoinPositions (physStep inp s)).coinCount = 0 := hcc
  have hXlc : (obstaclePhase defaultCoinPositions (physStep inp s)).levelCompleted = false := hlc
  have hgcoins : (coinPhase (obstaclePhase defaultCoinPositions (physStep inp s))).coins =
      defaultCoins.filter (fun c => !(resetPlayerBounds.intersects c.bounds)) := by
    rw [coinPhase_coins, hpb, hXcoins]
  have hgcc : (coinPhase (obstaclePhase defaultCoinPositions (physStep inp s))).coinCount =
      ((defaultCoins.filter (fun c => resetPlayerBounds.intersects c.bounds)).length : Int) := by
    rw [coinPhase_coinCount, hpb, hXcoins, hXcc, zero_add]
  have hgpb : playerBounds (coinPhase (obstaclePhase defaultCoinPositions (physStep inp s))) =
      resetPlayerBounds := by
    rw [playerBounds_coinPhase, hpb]
  have hglc : (coinPhase (obstaclePhase defaultCoinPositions (physStep inp s))).levelCompleted = false := by
    rw [coinPhase_levelCompleted, hXlc]
  have hggoal : (coinPhase (obstaclePhase defaultCoinPositions (physStep inp s))).goal = s.goal := by
    rw [coinPhase_goal, hXgoal]
  have hcomp : (goalPhase (coinPhase (obstaclePhase defaultCoinPositions (physStep inp s)))).levelCompleted =
      (resetPlayerBounds.intersects s.goal &&
       (defaultCoins.filter (fun c => !(resetPlayerBounds.intersects c.bounds))).isEmpty) := by
    rw [goalPhase_levelCompleted, hglc, Bool.or_false, hgpb, hgcoins, hggoal]
  refine ⟨?_, ?_, ?_, ?_, ?_, ?_⟩
  · simp
  · rw [cameraPhase_coins, goalPhase_coins, hgcoins]
  · rw [cameraPhase_coinCount, goalPhase_coinCount, hgcc]
  · rw [cameraPhase_levelCompleted, hcomp]
  · rw [cameraPhase_viewX, cameraPhase_levelCompleted]
    split_ifs with h
    · rw [goalPhase_viewX, coinPhase_viewX]
      exact hvx
    · rw [goalPhase_playerX, coinPhase_playerX]
      rw [show (obstaclePhase defaultCoinPositions (physStep inp s)).playerX = 400 from hpX]
      norm_num
  · rw [cameraPhase_viewY]
    split_ifs with h
    · rw [goalPhase_viewY, coinPhase_viewY]
      exact hvy
    · rfl

theorem reset_continues_frame_c10_witness :
    (frame noInput hitState).obstacles = hitState.obstacles.map (obstacleStep hitState.walls) ∧
    (frame noInput hitState).coins =
      defaultCoins.filter (fun c => !(resetPlayerBounds.intersects c.bounds)) ∧
    (frame noInput hitState).coinCount =
      ((defaultCoins.filter (fun c => resetPlayerBounds.intersects c.bounds)).length : Int) ∧
    (frame noInput hitState).levelCompleted =
      (resetPlayerBounds.intersects hitState.goal &&
       (defaultCoins.filter (fun c => !(resetPlayerBounds.intersects c.bounds))).isEmpty) ∧
    (frame noInput hitState).viewX = (if (frame noInput hitState).levelCompleted = true then 400 else 600) ∧
    (frame noInput hitState).viewY = 300 :=
  reset_continues_frame_c10 noInput hitState rfl (by intro e he; simp [noInput] at he) (by decide)
